import Mathlib

/-!
Shallow embedding of `src/ell/configurator.py` (the `Config` class and the
module-level `init` function).

Modelling conventions:
* Client handles are opaque in the source (never inspected, only stored and
  returned by identity), so they are modelled as natural numbers.
* Python dicts keyed by strings are modelled as association lists with
  last-write-wins insertion (`dinsert`), first-match lookup (`dget`) and
  key membership (`dmem`); `d.copy()` is the identity on immutable values,
  `d.update(ov)` is a left fold of insertions (`dupdate`).
* `threading.local()` with its per-thread `stack` attribute is modelled as a
  total function from thread ids to stacks; an absent `stack` attribute and an
  empty stack are both represented by `[]`, which is faithful because every
  read in the source guards with `hasattr(...) and self._local.stack`, so the
  two are observationally identical.
* Python list `append`/`pop` act on the tail; the stack is represented with
  its top (`stack[-1]`) at the head of the Lean list.
* Logging is made explicit: `get_client_for` returns the list of log events it
  emits, in order, alongside its `(client, fallback)` result.
* The source raises no exceptions on any path modelled here, so all
  operations are total functions on the state.
-/

set_option autoImplicit false

namespace EllConf

/-- Opaque client handle (`openai.Client` in the source). -/
abbrev Client := Nat

/-- Thread identity for the `threading.local` model. -/
abbrev ThreadId := Nat

/-- A Python `dict` with string keys, as an association list. -/
abbrev Dict (α : Type) := List (String × α)

/-- `d.get(k)`: the value stored at `k`, if any. -/
def dget {α : Type} : Dict α → String → Option α
  | [], _ => none
  | (k', v) :: rest, k => if k' = k then some v else dget rest k

/-- `k in d.keys()`. -/
def dmem {α : Type} : Dict α → String → Bool
  | [], _ => false
  | (k', _) :: rest, k => (k' = k : Bool) || dmem rest k

/-- `d[k] = v`: replace the binding of `k` if present, else append it. -/
def dinsert {α : Type} : Dict α → String → α → Dict α
  | [], k, v => [(k, v)]
  | (k', v') :: rest, k, v =>
      if k' = k then (k, v) :: rest else (k', v') :: dinsert rest k v

/-- `d.update(ov)`: insert every binding of `ov` into `d`, in order. -/
def dupdate {α : Type} (d ov : Dict α) : Dict α :=
  ov.foldl (fun acc kv => dinsert acc kv.1 kv.2) d

/-- A store reference (`ell.store.Store`): either a handle constructed by a
collaborator, or the on-disk `SQLiteStore(path)` built when `set_store`
receives a path string. The configurator never inspects it. -/
inductive Store where
  | ext (id : Nat)
  | sqlite (path : String)
deriving DecidableEq

/-- The argument accepted by `set_store`: `Union[Store, str]`. -/
inductive StoreArg where
  | store (s : Store)
  | path (p : String)
deriving DecidableEq

/-- Log severities used by `get_client_for`. -/
inductive LogLevel where
  | warning
  | debug
deriving DecidableEq

/-- One event sent to the logging sink. -/
structure LogEvent where
  level : LogLevel
  msg : String
deriving DecidableEq

/-- `colorama.Fore.LIGHTYELLOW_EX`, the ANSI code prepended on the verbose
logging path. -/
def Fore_LIGHTYELLOW_EX : String := "\x1b[93m"

/-- `colorama.Style.RESET_ALL`, the ANSI code appended on the verbose logging
path. -/
def Style_RESET_ALL : String := "\x1b[0m"

/-- The fallback warning message built in `get_client_for`. -/
def warningMessage (model_name : String) : String :=
  "Warning: A default provider for model \x27" ++ model_name ++
    "\x27 could not be found. Falling back to default OpenAI client from environment variables."

/-- The state of the `Config` pydantic model, together with the per-thread
`stack` attribute of its `threading.local` object. The field `default_client`
is the attribute created by `set_default_client`; it is distinct from the
declared private attribute `_default_openai_client` that the fallback path of
`get_client_for` reads. -/
structure Config where
  registry : Dict Client
  verbose : Bool
  wrapped_logging : Bool
  override_wrapped_logging_width : Option Nat
  _store : Option Store
  autocommit : Bool
  lazy_versioning : Bool
  default_lm_params : Dict Nat
  default_system_prompt : String
  _default_openai_client : Option Client
  default_client : Option Client
  localStacks : ThreadId → List (Dict Client)

/-- `Config()` — the field defaults of the pydantic model, with a fresh
`threading.local()` (no thread has a `stack` attribute). -/
def Config.init_default : Config where
  registry := []
  verbose := false
  wrapped_logging := true
  override_wrapped_logging_width := none
  _store := none
  autocommit := false
  lazy_versioning := true
  default_lm_params := []
  default_system_prompt := "You are a helpful AI assistant."
  _default_openai_client := none
  default_client := none
  localStacks := fun _ => []

/-- Point update of the per-thread stack map. -/
def setStack (f : ThreadId → List (Dict Client)) (tid : ThreadId)
    (s : List (Dict Client)) : ThreadId → List (Dict Client) :=
  fun t => if t = tid then s else f t

/-- `register_model`: under the lock, `self.registry[model_name] = client`. -/
def Config.register_model (c : Config) (model_name : String) (client : Client) :
    Config :=
  { c with registry := dinsert c.registry model_name client }

/-- `has_store` property. -/
def Config.has_store (c : Config) : Bool :=
  c._store.isSome

/-- The expression `self._local.stack[-1] if hasattr(self._local, 'stack') and
self._local.stack else self.registry`, shared by `model_registry_override` and
`get_client_for`: the top of the calling thread's override stack when it is
non-empty, else the global registry. -/
def Config.effectiveRegistry (c : Config) (tid : ThreadId) : Dict Client :=
  match c.localStacks tid with
  | [] => c.registry
  | top :: _ => top

/-- Entry half of the `model_registry_override` context manager, run by thread
`tid`: ensure the thread-local `stack` exists, snapshot the current effective
registry (`stack[-1]` if the stack is non-empty, else the global registry),
copy it, apply `overrides` on top, and push the new frame. -/
def Config.pushOverride (c : Config) (tid : ThreadId) (overrides : Dict Client) :
    Config :=
  let current_registry := c.effectiveRegistry tid
  let new_registry := dupdate current_registry overrides
  { c with localStacks := setStack c.localStacks tid (new_registry :: c.localStacks tid) }

/-- Exit half of the `model_registry_override` context manager (the `finally`
block): pop one frame from the calling thread's stack. -/
def Config.popOverride (c : Config) (tid : ThreadId) : Config :=
  { c with localStacks := setStack c.localStacks tid (c.localStacks tid).tail }

/-- The whole `model_registry_override` scope on thread `tid`: push the frame,
run the caller-supplied body (which returns the new state and whether it
raised), and pop the frame whether or not the body raised. The raised flag is
propagated to the caller. -/
def Config.withOverride (c : Config) (tid : ThreadId) (overrides : Dict Client)
    (body : Config → Config × Bool) : Config × Bool :=
  let c1 := c.pushOverride tid overrides
  let r := body c1
  (r.1.popOverride tid, r.2)

/-- `get_client_for`, run by thread `tid`: pick the effective registry (top of
the thread's stack when present and non-empty, else the global registry), look
the model up, and on a miss log one event — WARNING with the message wrapped
in color codes when `verbose`, else DEBUG with the plain message — and fall
back to `_default_openai_client`. Returns `((client, fallback), events)`. -/
def Config.get_client_for (c : Config) (tid : ThreadId) (model_name : String) :
    (Option Client × Bool) × List LogEvent :=
  let current_registry := c.effectiveRegistry tid
  let client := dget current_registry model_name
  if dmem current_registry model_name then
    ((client, false), [])
  else
    let warning_message := warningMessage model_name
    let ev :=
      if c.verbose then
        LogEvent.mk LogLevel.warning
          (Fore_LIGHTYELLOW_EX ++ warning_message ++ Style_RESET_ALL)
      else
        LogEvent.mk LogLevel.debug warning_message
    ((c._default_openai_client, true), [ev])

/-- `reset`, called from thread `tid`: under the lock, `self.__init__()`
re-validates every pydantic field to its default and rebinds `_lock` and
`_local` to fresh objects — in particular `self._local = threading.local()`
replaces the thread-local object for every thread.  The subsequent
`hasattr(self._local, 'stack')` check then sees the fresh local, which has no
`stack` attribute, so the guarded `del` is a no-op. -/
def Config.reset (c : Config) (tid : ThreadId) : Config :=
  let _ := c
  let _ := tid
  Config.init_default

/-- `set_store(store, autocommit)`: a path string constructs `SQLiteStore`,
a store handle is kept as is; then `self.autocommit = autocommit or
self.autocommit`. -/
def Config.set_store (c : Config) (store : StoreArg) (autocommit : Bool) :
    Config :=
  match store with
  | StoreArg.path p =>
      { c with _store := some (Store.sqlite p),
               autocommit := autocommit || c.autocommit }
  | StoreArg.store s =>
      { c with _store := some s,
               autocommit := autocommit || c.autocommit }

/-- `get_store`. -/
def Config.get_store (c : Config) : Option Store :=
  c._store

/-- `set_default_lm_params(**params)`: replaces the mapping wholesale. -/
def Config.set_default_lm_params (c : Config) (params : Dict Nat) : Config :=
  { c with default_lm_params := params }

/-- `set_default_system_prompt(prompt)`. -/
def Config.set_default_system_prompt (c : Config) (prompt : String) : Config :=
  { c with default_system_prompt := prompt }

/-- `set_default_client(client)`: the source assigns `self.default_client =
client`, an attribute distinct from the `_default_openai_client` private
attribute that the fallback path of `get_client_for` reads. -/
def Config.set_default_client (c : Config) (client : Client) : Config :=
  { c with default_client := some client }

/-- The keyword arguments of the module-level `init`, each `Option`al field
being `none` when the caller omitted it; `verbose`, `autocommit` and
`lazy_versioning` have Python default values, which the model substitutes at
the call boundary (an omitted flag arrives as its default). -/
structure InitArgs where
  store : Option StoreArg := none
  verbose : Bool := false
  autocommit : Bool := true
  lazy_versioning : Bool := true
  default_lm_params : Option (Dict Nat) := none
  default_system_prompt : Option String := none
  default_openai_client : Option Client := none

/-- The module-level `init`: assigns `config.verbose` and
`config.lazy_versioning` unconditionally, then applies each remaining option
through its setter only when it was passed (is not `None`). -/
def init (c : Config) (a : InitArgs) : Config :=
  let c := { c with verbose := a.verbose, lazy_versioning := a.lazy_versioning }
  let c := match a.store with
    | none => c
    | some s => c.set_store s a.autocommit
  let c := match a.default_lm_params with
    | none => c
    | some p => c.set_default_lm_params p
  let c := match a.default_system_prompt with
    | none => c
    | some p => c.set_default_system_prompt p
  match a.default_openai_client with
  | none => c
  | some cl => c.set_default_client cl

/-! ### Dictionary lemmas -/

theorem dget_dinsert {α : Type} (d : Dict α) (k k' : String) (v : α) :
    dget (dinsert d k v) k' = if k = k' then some v else dget d k' := by
  induction d with
  | nil => simp [dinsert, dget]
  | cons hd tl ih =>
    obtain ⟨a, b⟩ := hd
    by_cases h : a = k
    · subst h
      simp only [dinsert, if_pos rfl, dget]
      by_cases h' : a = k' <;> simp [h']
    · simp only [dinsert, if_neg h, dget]
      by_cases h' : a = k'
      · subst h'
        have hk : ¬ k = a := fun e => h e.symm
        simp [hk]
      · simp [h', ih]

theorem dmem_dinsert {α : Type} (d : Dict α) (k k' : String) (v : α) :
    dmem (dinsert d k v) k' = ((k = k' : Bool) || dmem d k') := by
  induction d with
  | nil => simp [dinsert, dmem]
  | cons hd tl ih =>
    obtain ⟨a, b⟩ := hd
    by_cases h : a = k
    · subst h
      simp only [dinsert, if_pos rfl, dmem]
      by_cases h' : a = k' <;> simp [h']
    · simp only [dinsert, if_neg h, dmem, ih]
      by_cases h' : a = k' <;> simp [h']

theorem dupdate_single {α : Type} (d : Dict α) (k : String) (v : α) :
    dupdate d [(k, v)] = dinsert d k v := rfl

/-! ### Stack lemmas -/

theorem setStack_same (f : ThreadId → List (Dict Client)) (tid : ThreadId)
    (s : List (Dict Client)) : setStack f tid s tid = s := by
  simp [setStack]

theorem setStack_ne (f : ThreadId → List (Dict Client)) (tid t : ThreadId)
    (s : List (Dict Client)) (h : t ≠ tid) : setStack f tid s t = f t := by
  simp [setStack, h]

/-- Popping the frame that was just pushed restores the configuration
exactly: the scope entry and exit of `model_registry_override` compose to the
identity on the whole state. -/
theorem push_pop (c : Config) (tid : ThreadId) (ov : Dict Client) :
    (c.pushOverride tid ov).popOverride tid = c := by
  cases c with
  | mk reg vb wl ow st ac lz dlp dsp doc dc ls =>
    simp only [Config.pushOverride, Config.popOverride, Config.mk.injEq,
      and_true, true_and]
    funext t
    by_cases h : t = tid
    · subst h
      simp [setStack]
    · simp [setStack, h]

theorem register_model_verbose (c : Config) (n : String) (A : Client) :
    (c.register_model n A).verbose = c.verbose := rfl

theorem register_model_default_openai (c : Config) (n : String) (A : Client) :
    (c.register_model n A)._default_openai_client
      = c._default_openai_client := rfl

theorem register_model_localStacks (c : Config) (n : String) (A : Client) :
    (c.register_model n A).localStacks = c.localStacks := rfl

theorem dmem_eq_isSome {α : Type} (d : Dict α) (k : String) :
    dmem d k = (dget d k).isSome := by
  induction d with
  | nil => simp [dmem, dget]
  | cons hd tl ih =>
    obtain ⟨a, b⟩ := hd
    by_cases h : a = k <;> simp [dmem, dget, h, ih]

/-! ### Resolution lemmas -/

theorem effectiveRegistry_push (c : Config) (tid : ThreadId) (ov : Dict Client) :
    (c.pushOverride tid ov).effectiveRegistry tid
      = dupdate (c.effectiveRegistry tid) ov := by
  simp [Config.pushOverride, Config.effectiveRegistry, setStack_same]

theorem effectiveRegistry_of_other_thread (c : Config) (tid t : ThreadId)
    (ov : Dict Client) (h : t ≠ tid) :
    (c.pushOverride tid ov).effectiveRegistry t = c.effectiveRegistry t := by
  simp [Config.pushOverride, Config.effectiveRegistry, setStack_ne _ _ _ _ h]

/-- Resolution when the model is bound in the effective registry: the explicit
match is returned with `fallback = False` and no log event. -/
theorem get_client_for_of_dget_some (c : Config) (tid : ThreadId) (n : String)
    (v : Client) (h : dget (c.effectiveRegistry tid) n = some v) :
    c.get_client_for tid n = ((some v, false), []) := by
  simp [Config.get_client_for, dmem_eq_isSome, h]

/-- Resolution when the model is absent from the effective registry: the
default client is returned with `fallback = True` and one log event. -/
theorem get_client_for_of_dget_none (c : Config) (tid : ThreadId) (n : String)
    (h : dget (c.effectiveRegistry tid) n = none) :
    c.get_client_for tid n =
      ((c._default_openai_client, true),
        [if c.verbose then
            LogEvent.mk LogLevel.warning
              (Fore_LIGHTYELLOW_EX ++ warningMessage n ++ Style_RESET_ALL)
          else LogEvent.mk LogLevel.debug (warningMessage n)]) := by
  simp [Config.get_client_for, dmem_eq_isSome, h]

/-! ### Claim theorems -/

/-- C1: `set_default_client(C)` assigns the attribute `default_client`, while
the fallback path of `get_client_for` reads the distinct private attribute
`_default_openai_client`; consequently, after setting the default client to
`7` (directly or through `init`), resolving a never-registered model returns
`(None, True)` instead of `(7, True)`.  This evaluates the code at the failing
input of the claim. -/
theorem set_default_client_not_seen_by_fallback :
    (Config.init_default.set_default_client 7).default_client = some 7 ∧
    (Config.init_default.set_default_client 7)._default_openai_client = none ∧
    ((Config.init_default.set_default_client 7).get_client_for 0 "gpt-x").1
      = (none, true) ∧
    ((init Config.init_default { default_openai_client := some 7 }).get_client_for
        0 "gpt-x").1 = (none, true) :=
  ⟨rfl, rfl, rfl, rfl⟩

/-- C2: `reset` re-runs `__init__`, which replaces the `threading.local`
object wholesale, so the override stack of *every* thread is discarded, not
only the calling thread's: here thread 2 holds an active override frame for
model `m`, thread 1 calls `reset`, and afterwards thread 2's stack is empty
and its resolution of `m` falls back instead of seeing the override.  This
evaluates the code at the failing input of the claim. -/
theorem reset_clears_other_threads_stacks :
    (Config.init_default.pushOverride 2 [("m", 7)]).localStacks 2 = [[("m", 7)]] ∧
    ((Config.init_default.pushOverride 2 [("m", 7)]).get_client_for 2 "m").1
      = (some 7, false) ∧
    ((Config.init_default.pushOverride 2 [("m", 7)]).reset 1).localStacks 2 = [] ∧
    (((Config.init_default.pushOverride 2 [("m", 7)]).reset 1).get_client_for
        2 "m").1 = (none, true) :=
  ⟨rfl, rfl, rfl, rfl⟩

/-- C3 counterexample: calling `init` without passing `verbose` or
`lazy_versioning` does **not** leave the previously set values untouched —
the source assigns `config.verbose` and `config.lazy_versioning`
unconditionally, so a prior `verbose = True` / `lazy_versioning = False`
state is overwritten with the Python defaults `False` / `True`. -/
theorem init_overwrites_absent_flags :
    ({ Config.init_default with
        verbose := true, lazy_versioning := false } : Config).verbose = true ∧
    (init { Config.init_default with verbose := true, lazy_versioning := false }
        {}).verbose = false ∧
    ({ Config.init_default with
        verbose := true, lazy_versioning := false } : Config).lazy_versioning
      = false ∧
    (init { Config.init_default with verbose := true, lazy_versioning := false }
        {}).lazy_versioning = true :=
  ⟨rfl, rfl, rfl, rfl⟩

/-- C3 amended: for every prior state, `init` applies each of the options
`store`, `default_lm_params`, `default_system_prompt` and
`default_openai_client` through its corresponding setter when present and
leaves the corresponding prior state untouched when absent, and it never
touches the registry, the override stacks or `_default_openai_client`; but it
assigns `verbose` and `lazy_versioning` unconditionally (an omitted flag
arrives as its Python default), and `autocommit` is applied only when `store`
is present. -/
theorem init_option_frame (c : Config) (a : InitArgs) :
    (init c a).verbose = a.verbose ∧
    (init c a).lazy_versioning = a.lazy_versioning ∧
    (init c a)._store = (match a.store with
      | none => c._store
      | some (StoreArg.path p) => some (Store.sqlite p)
      | some (StoreArg.store s) => some s) ∧
    (init c a).autocommit = (match a.store with
      | none => c.autocommit
      | some _ => a.autocommit || c.autocommit) ∧
    (init c a).default_lm_params = (match a.default_lm_params with
      | none => c.default_lm_params
      | some p => p) ∧
    (init c a).default_system_prompt = (match a.default_system_prompt with
      | none => c.default_system_prompt
      | some p => p) ∧
    (init c a).default_client = (match a.default_openai_client with
      | none => c.default_client
      | some cl => some cl) ∧
    (init c a)._default_openai_client = c._default_openai_client ∧
    (init c a).registry = c.registry ∧
    (init c a).localStacks = c.localStacks := by
  obtain ⟨st, vb, ac, lz, dlp, dsp, doc⟩ := a
  cases st with
  | none =>
      cases dlp <;> cases dsp <;> cases doc <;>
        simp [init, Config.set_store, Config.set_default_lm_params,
          Config.set_default_system_prompt, Config.set_default_client]
  | some s =>
      cases s <;> cases dlp <;> cases dsp <;> cases doc <;>
        simp [init, Config.set_store, Config.set_default_lm_params,
          Config.set_default_system_prompt, Config.set_default_client]

/-- C4: entering the override scope with `{m: B}` makes `m` resolve to
`(B, False)` with no log event inside the scope, and exiting the scope
restores the whole configuration exactly, so resolution of every name on the
same thread returns exactly what it returned immediately before entry — for
every prior thread-local and global registry state. -/
theorem override_scope_restoration (c : Config) (tid : ThreadId) (m : String)
    (B : Client) :
    (c.pushOverride tid [(m, B)]).get_client_for tid m = ((some B, false), []) ∧
    (c.pushOverride tid [(m, B)]).popOverride tid = c ∧
    ∀ n, ((c.pushOverride tid [(m, B)]).popOverride tid).get_client_for tid n
        = c.get_client_for tid n := by
  refine ⟨?_, push_pop c tid [(m, B)], fun n => by rw [push_pop]⟩
  apply get_client_for_of_dget_some
  rw [effectiveRegistry_push, dupdate_single, dget_dinsert]
  simp

/-- C9 counterexample: the registry snapshot frozen in an already-pushed
frame does not see a later registration even when the frame does not shadow
the registered name: with an active frame `{b: 2}` pushed before
`register("a", 5)`, resolving `a` under the override returns `(None, True)`,
not `(5, False)` as the claim states. -/
theorem register_not_seen_under_stale_frame :
    ((Config.init_default.pushOverride 1 [("b", 2)]).register_model "a" 5).localStacks
        1 = [[("b", 2)]] ∧
    dmem [("b", 2)] "a" = false ∧
    (((Config.init_default.pushOverride 1 [("b", 2)]).register_model "a"
        5).get_client_for 1 "a").1 = (none, true) :=
  ⟨rfl, rfl, rfl⟩

/-- C9 amended: after `register(name, A)`, resolution of `name` returns
`(A, False)` on any thread whose override stack is empty; a thread whose
active top frame was pushed before the registration and does not contain
`name` instead resolves `name` to the fallback, because frames are frozen
snapshots. -/
theorem register_resolves_on_empty_stack (c : Config) (tid : ThreadId)
    (name : String) (A : Client) (h : c.localStacks tid = []) :
    ((c.register_model name A).get_client_for tid name).1 = (some A, false) := by
  rw [get_client_for_of_dget_some (c.register_model name A) tid name A]
  rw [show (c.register_model name A).effectiveRegistry tid
      = dinsert c.registry name A by
    simp [Config.register_model, Config.effectiveRegistry, h]]
  rw [dget_dinsert]
  simp

/-- Witness for the amended C9 at a concrete input. -/
theorem register_resolves_on_empty_stack_witness :
    ((Config.init_default.register_model "gpt-x" 4).get_client_for 3 "gpt-x").1
      = (some 4, false) :=
  register_resolves_on_empty_stack Config.init_default 3 "gpt-x" 4 rfl

/-- C10: `set_store` assigns `autocommit or self.autocommit`, so after
`set_store(store, b)` the flag equals `b ||` its prior value; in particular a
call with `autocommit = False` leaves the prior value unchanged, making the
flag monotone non-decreasing under `set_store`. -/
theorem set_store_autocommit_monotone (c : Config) (s : StoreArg) (b : Bool) :
    (c.set_store s b).autocommit = (b || c.autocommit) ∧
    (c.set_store s false).autocommit = c.autocommit := by
  cases s <;> simp [Config.set_store]

/-- C5: with distinct names `a` and `b`, after pushing `{a: X}` and then the
nested `{b: Y}`, both `a` and `b` resolve to their overrides with no fallback
inside the inner scope; popping the inner frame restores exactly the state of
the outer scope, so `b` reverts to its pre-inner-scope resolution while `a`
still resolves to `(X, False)`, with everything inherited below the outer
frame unchanged. -/
theorem override_nesting_composes (c : Config) (tid : ThreadId) (a b : String)
    (X Y : Client) (hab : a ≠ b) :
    ((c.pushOverride tid [(a, X)]).pushOverride tid [(b, Y)]).get_client_for
        tid a = ((some X, false), []) ∧
    ((c.pushOverride tid [(a, X)]).pushOverride tid [(b, Y)]).get_client_for
        tid b = ((some Y, false), []) ∧
    ((c.pushOverride tid [(a, X)]).pushOverride tid [(b, Y)]).popOverride tid
      = c.pushOverride tid [(a, X)] ∧
    (((c.pushOverride tid [(a, X)]).pushOverride tid [(b, Y)]).popOverride
        tid).get_client_for tid b
      = (c.pushOverride tid [(a, X)]).get_client_for tid b ∧
    ((((c.pushOverride tid [(a, X)]).pushOverride tid [(b, Y)]).popOverride
        tid).get_client_for tid a) = ((some X, false), []) := by
  have h3 : ((c.pushOverride tid [(a, X)]).pushOverride tid [(b, Y)]).popOverride
      tid = c.pushOverride tid [(a, X)] := push_pop _ tid [(b, Y)]
  have hXouter : (c.pushOverride tid [(a, X)]).get_client_for tid a
      = ((some X, false), []) := by
    apply get_client_for_of_dget_some
    rw [effectiveRegistry_push, dupdate_single, dget_dinsert]
    simp
  refine ⟨?_, ?_, h3, by rw [h3], by rw [h3]; exact hXouter⟩
  · apply get_client_for_of_dget_some
    rw [effectiveRegistry_push, effectiveRegistry_push, dupdate_single,
      dupdate_single, dget_dinsert, dget_dinsert]
    simp [Ne.symm hab]
  · apply get_client_for_of_dget_some
    rw [effectiveRegistry_push, dupdate_single, dget_dinsert]
    simp

/-- Witness for C5 at a concrete input. -/
theorem override_nesting_composes_witness :
    ((Config.init_default.pushOverride 0 [("a", 1)]).pushOverride 0
        [("b", 2)]).get_client_for 0 "a" = ((some 1, false), []) ∧
    ((Config.init_default.pushOverride 0 [("a", 1)]).pushOverride 0
        [("b", 2)]).get_client_for 0 "b" = ((some 2, false), []) ∧
    ((Config.init_default.pushOverride 0 [("a", 1)]).pushOverride 0
        [("b", 2)]).popOverride 0 = Config.init_default.pushOverride 0 [("a", 1)] ∧
    (((Config.init_default.pushOverride 0 [("a", 1)]).pushOverride 0
        [("b", 2)]).popOverride 0).get_client_for 0 "b"
      = (Config.init_default.pushOverride 0 [("a", 1)]).get_client_for 0 "b" ∧
    ((((Config.init_default.pushOverride 0 [("a", 1)]).pushOverride 0
        [("b", 2)]).popOverride 0).get_client_for 0 "a") = ((some 1, false), []) :=
  override_nesting_composes Config.init_default 0 "a" "b" 1 2 (by decide)

/-- C6: when the body run inside the `model_registry_override` scope raises
(and, having aborted, leaves the configuration as it was at entry), the
`finally` block still pops exactly one frame: the resulting state is the
pre-entry state, the calling thread's stack depth equals its depth before
entry, the raise propagates, and every subsequent resolution on that thread
returns what it returned before entry — the aborted override is not
observed. -/
theorem withOverride_guaranteed_pop (c : Config) (tid : ThreadId)
    (ov : Dict Client) (body : Config → Config × Bool)
    (hraised : (body (c.pushOverride tid ov)).2 = true)
    (hbody : (body (c.pushOverride tid ov)).1 = c.pushOverride tid ov) :
    (c.withOverride tid ov body).1 = c ∧
    ((c.withOverride tid ov body).1.localStacks tid).length
      = (c.localStacks tid).length ∧
    (c.withOverride tid ov body).2 = true ∧
    ∀ n, (c.withOverride tid ov body).1.get_client_for tid n
        = c.get_client_for tid n := by
  have h : (c.withOverride tid ov body).1 = c := by
    show ((body (c.pushOverride tid ov)).1).popOverride tid = c
    rw [hbody, push_pop]
  exact ⟨h, by rw [h], hraised, fun n => by rw [h]⟩

/-- Witness for C6: a body that raises immediately still gets its frame
popped, restoring the initial configuration. -/
theorem withOverride_guaranteed_pop_witness :
    (Config.withOverride Config.init_default 0 [("m", 3)]
        (fun s => (s, true))).1 = Config.init_default :=
  (withOverride_guaranteed_pop Config.init_default 0 [("m", 3)]
      (fun s => (s, true)) rfl rfl).1

/-- C7: a frame pushed on thread `tid` is a frozen snapshot: a later
`register(name, A)` leaves that thread's stack untouched and does not change
any resolution made under the active override, while a thread `tid'` with an
empty override stack observes the newly registered value as an explicit,
non-fallback match. -/
theorem register_preserves_pushed_frames (c : Config) (tid tid' : ThreadId)
    (ov : Dict Client) (name : String) (A : Client)
    (h1 : c.localStacks tid' = []) (h2 : tid' ≠ tid) :
    ((c.pushOverride tid ov).register_model name A).localStacks tid
      = (c.pushOverride tid ov).localStacks tid ∧
    (∀ n, ((c.pushOverride tid ov).register_model name A).get_client_for tid n
        = (c.pushOverride tid ov).get_client_for tid n) ∧
    (((c.pushOverride tid ov).register_model name A).get_client_for tid'
        name).1 = (some A, false) := by
  have heq : ((c.pushOverride tid ov).register_model name A).effectiveRegistry
      tid = (c.pushOverride tid ov).effectiveRegistry tid := by
    simp [Config.register_model, Config.effectiveRegistry, Config.pushOverride,
      setStack_same]
  have heff : ((c.pushOverride tid ov).register_model name A).effectiveRegistry
      tid' = dinsert c.registry name A := by
    simp [Config.register_model, Config.effectiveRegistry, Config.pushOverride,
      setStack_ne _ _ _ _ h2, h1]
  refine ⟨rfl, fun n => ?_, ?_⟩
  · simp only [Config.get_client_for, heq, register_model_verbose,
      register_model_default_openai]
  · rw [get_client_for_of_dget_some _ tid' name A (by rw [heff, dget_dinsert]; simp)]

/-- Witness for C7 at a concrete input. -/
theorem register_preserves_pushed_frames_witness :
    (((Config.init_default.pushOverride 1 [("b", 2)]).register_model "gpt-x"
        9).get_client_for 2 "gpt-x").1 = (some 9, false) :=
  (register_preserves_pushed_frames Config.init_default 1 2 [("b", 2)] "gpt-x"
      9 rfl (by decide)).2.2

/-- C8 counterexample: the two severities do not carry the same message — the
WARNING event emitted when `verbose` is enabled wraps the message in ANSI
color codes, so its text differs from the plain DEBUG message emitted
otherwise. -/
theorem fallback_log_messages_differ :
    (({ Config.init_default with verbose := true } : Config).get_client_for 0
        "gpt-x").2 =
      [LogEvent.mk LogLevel.warning
        (Fore_LIGHTYELLOW_EX ++ warningMessage "gpt-x" ++ Style_RESET_ALL)] ∧
    ((Config.init_default).get_client_for 0 "gpt-x").2 =
      [LogEvent.mk LogLevel.debug (warningMessage "gpt-x")] ∧
    Fore_LIGHTYELLOW_EX ++ warningMessage "gpt-x" ++ Style_RESET_ALL
      ≠ warningMessage "gpt-x" :=
  ⟨rfl, rfl, by decide⟩

/-- C8 amended: on the fallback path (and only there) exactly one log event
is emitted and no exception is raised — a WARNING carrying the message
wrapped in color codes when the verbosity flag is enabled, otherwise a DEBUG
carrying the plain message — and on the explicit-match path no log event is
emitted. -/
theorem fallback_logging_discipline (c : Config) (tid : ThreadId)
    (n : String) :
    (c.get_client_for tid n).2 =
      (if (c.get_client_for tid n).1.2 = true then
        [if c.verbose then
            LogEvent.mk LogLevel.warning
              (Fore_LIGHTYELLOW_EX ++ warningMessage n ++ Style_RESET_ALL)
          else LogEvent.mk LogLevel.debug (warningMessage n)]
      else []) := by
  rcases hd : dget (c.effectiveRegistry tid) n with _ | v
  · rw [get_client_for_of_dget_none c tid n hd]
    simp
  · rw [get_client_for_of_dget_some c tid n v hd]
    simp

end EllConf
